import Mathlib

/-!
Verification of `route_registration_from_csv/create_routes_in_jurisdiction.py`
(roads_management_insights). The Python source is shallowly embedded below:

* Coordinates are modelled as exact rationals (`ℚ`): the Python code calls
  `float(...)` on decimal strings; we keep the exact decimal value, which is
  the value the claims talk about.
* The regex `\(\s*(-?\d+\.?\d*)\s*,\s*(-?\d+\.?\d*)\s*\)` used with
  `re.search` is embedded as a deterministic scanner (`coordSearch`): for this
  particular pattern greedy matching never needs backtracking, because the
  character classes of adjacent pattern pieces are disjoint, so the
  deterministic maximal-munch parse is equivalent to Python's backtracking
  search.  `re.search` tries every start position left to right; a match must
  begin with a literal open parenthesis, hence scanning positions in order is
  faithful.
* The `csv` module (default dialect) is modelled for inputs without escaped
  quote characters or embedded newlines inside fields, which covers every
  input considered here; `encoding='utf-8-sig'` is modelled by `stripBom`.
* `write_log` prints to the console and then opens the module global
  `LOG_FILE`, which is never assigned, so in the program every call raises
  `NameError` after the echo and before any file access (`module_globals`,
  `write_log_run`, `write_log_effect`).  The pipeline is therefore embedded
  at two levels: `create_route_segment_run`, `get_gcloud_token_run`,
  `route_loop_run` and `main_route_creator_run` thread this logging effect
  and reproduce the resulting abort, while the plain `create_route_segment`,
  `route_loop` and `main_route_creator` describe the computation those
  functions perform once a logging call has succeeded.  A `write_log` call
  succeeds exactly when `LOG_FILE` is bound, independently of the message,
  so one successful call implies that all later ones succeed, and under such
  an environment the two levels coincide (`route_loop_run_of_logging`).
* `requests.post` and the gcloud token subprocess are external boundaries:
  they enter as oracle arguments (`PostOutcome`, a token oracle).
-/

/-- Python exceptions that matter for the embedded fragment. -/
inductive PyErr where
  | nameError (missing : String)
  | typeError
deriving DecidableEq, Repr

/-- Python `\s` on the ASCII range: space, tab, newline, carriage return,
vertical tab, form feed.  (The claims involve only these.) -/
def isPySpace (c : Char) : Bool :=
  c = ' ' || c = '\t' || c = '\n' || c = '\r' || c = '\x0b' || c = '\x0c'

/-- Characters kept by `re.sub(r'[^a-z0-9-]', '', route_name)`. -/
def isRouteChar (c : Char) : Bool :=
  ('a' ≤ c && c ≤ 'z') || ('0' ≤ c && c ≤ '9') || c = '-'

/-- Decimal value of a digit string, as Python `int`/`float` would read the
integer part: left fold, `'0'` has code 48. -/
def digitsVal (ds : List Char) : Nat :=
  ds.foldl (fun a c => 10 * a + (c.toNat - 48)) 0

/-- Decimal digits, most significant first, with a structural fuel bound
(any fuel above the value itself is enough). -/
def natDigitsAux : Nat → Nat → List Char
  | 0, _ => []
  | fuel + 1, n =>
    if n < 10 then [Nat.digitChar n]
    else natDigitsAux fuel (n / 10) ++ [Nat.digitChar (n % 10)]

/-- Decimal digits of `n`, most significant first: the embedding of Python
`str(counter)` inside the f-string that builds a route identifier. -/
def natDigits (n : Nat) : List Char := natDigitsAux (n + 1) n

/-- Greedy `\s*`: drop leading whitespace. -/
def skipWs : List Char → List Char
  | [] => []
  | c :: cs => if isPySpace c then skipWs cs else c :: cs

/-- Greedy `\d*`: split off the leading run of digits. -/
def spanDigits : List Char → List Char × List Char
  | [] => ([], [])
  | c :: cs =>
    if c.isDigit then
      let p := spanDigits cs
      (c :: p.1, p.2)
    else ([], c :: cs)

/-- Greedy parse of `-?\d+\.?\d*` at the head of the input, returning the
exact decimal value of the matched text and the rest of the input.  The
fractional digits only contribute when a decimal point was consumed, exactly
as the regex groups them. -/
def parseNum (xs : List Char) : Option (ℚ × List Char) :=
  let neg : Bool := xs.head? == some '-'
  let ip := spanDigits (if neg then xs.tail else xs)
  if ip.1 = [] then none
  else
    let dot : Bool := ip.2.head? == some '.'
    let fp := if dot then spanDigits ip.2.tail else ([], ip.2)
    let den : Nat := 10 ^ fp.1.length
    let scaled : Int := (digitsVal ip.1 * den + digitsVal fp.1 : Nat)
    some (mkRat (if neg then -scaled else scaled) den, fp.2)

/-- Attempt the coordinate pattern at the current position: literal `(`,
then the two numbers separated by a comma, all with optional whitespace,
closed by `)`.  Returns both values and the unconsumed tail. -/
def tryParse (xs : List Char) : Option (ℚ × ℚ × List Char) :=
  if xs.head? == some '(' then
    match parseNum (skipWs xs.tail) with
    | none => none
    | some (v1, r2) =>
      let r3 := skipWs r2
      if r3.head? == some ',' then
        match parseNum (skipWs r3.tail) with
        | none => none
        | some (v2, r6) =>
          let r7 := skipWs r6
          if r7.head? == some ')' then some (v1, v2, r7.tail) else none
      else none
  else none

/-- Embedding of `coord_regex.search(s)`: try every start position from the
left; the first position admitting a match supplies the groups. -/
def coordSearch : List Char → Option (ℚ × ℚ)
  | [] => none
  | c :: cs =>
    match tryParse (c :: cs) with
    | some (v1, v2, _) => some (v1, v2)
    | none => coordSearch cs

/-- Python `float(...)` restricted to the decimal forms produced by the CSVs
considered here: optional surrounding whitespace, optional sign, digits with
an optional fractional part (no exponent notation). -/
def pyFloat (s : String) : Option ℚ :=
  let body := skipWs s.data
  let neg : Bool := body.head? == some '-'
  let pos : Bool := body.head? == some '+'
  let ip := spanDigits (if neg || pos then body.tail else body)
  if ip.1 = [] then none
  else
    let dot : Bool := ip.2.head? == some '.'
    let fp := if dot then spanDigits ip.2.tail else ([], ip.2)
    if skipWs fp.2 = [] then
      let den : Nat := 10 ^ fp.1.length
      let scaled : Int := (digitsVal ip.1 * den + digitsVal fp.1 : Nat)
      some (mkRat (if neg then -scaled else scaled) den)
    else none

/-! ## Configuration (the YAML document, already decoded) -/

/-- `csv_format.combined_coordinates`. -/
structure CombinedCols where
  origin_coord_column : String
  destination_coord_column : String
deriving DecidableEq, Repr

/-- `csv_format.separate_coordinates`. -/
structure SeparateCols where
  origin_lat_column : String
  origin_lon_column : String
  destination_lat_column : String
  destination_lon_column : String
deriving DecidableEq, Repr

/-- `csv_format`, with its optional sub-documents. -/
structure CsvFormat where
  combined_coordinates : Option CombinedCols
  separate_coordinates : Option SeparateCols
  segment_name_column : Option String
deriving DecidableEq, Repr

/-- The configuration document.  `route_name_pfx` models the source key
`route_name_prefix` (renamed here for lexical reasons only). -/
structure Config where
  google_project_id : Option String
  log_file : Option String
  max_routes_to_create : Option Nat
  route_name_pfx : Option String
  csv_format : CsvFormat
deriving DecidableEq, Repr

/-! ## CSV reading (`csv.DictReader` over a `utf-8-sig` text stream) -/

/-- `encoding='utf-8-sig'`: a leading byte-order mark is stripped. -/
def stripBom (l : List Char) : List Char :=
  if l.head? = some '\uFEFF' then l.tail else l

/-- One unquoted field chunk: up to the next comma. -/
def readUnquoted : List Char → List Char × List Char
  | [] => ([], [])
  | ',' :: r => ([], ',' :: r)
  | c :: r =>
    let p := readUnquoted r
    (c :: p.1, p.2)

/-- One quoted field chunk: up to the closing quote character. -/
def readQuoted : List Char → List Char × List Char
  | [] => ([], [])
  | '"' :: r => ([], r)
  | c :: r =>
    let p := readQuoted r
    (c :: p.1, p.2)

/-- One CSV field (default dialect, no escaped quotes): a quoted chunk, if
present, followed by any unquoted remainder before the delimiter. -/
def readField (cs : List Char) : List Char × List Char :=
  match cs with
  | '"' :: r =>
    let q := readQuoted r
    let u := readUnquoted q.2
    (q.1 ++ u.1, u.2)
  | _ => readUnquoted cs

/-- Split one CSV line into its fields (fuel-driven; the fuel is ample). -/
def splitFieldsAux : Nat → List Char → List String
  | 0, _ => []
  | fuel + 1, cs =>
    let p := readField cs
    match p.2 with
    | [] => [String.mk p.1]
    | _ :: r => String.mk p.1 :: splitFieldsAux fuel r

/-- A CSV record: the empty line yields the empty record, as `csv.reader`
does. -/
def splitRecord (cs : List Char) : List String :=
  match cs with
  | [] => []
  | _ => splitFieldsAux (cs.length + 1) cs

/-- The lines of the text file: split at newlines; a trailing newline does
not produce an extra empty line. -/
def fileLines (cs : List Char) : List (List Char) :=
  let ls := cs.splitOn '\n'
  if ls.getLast? = some [] then ls.dropLast else ls

/-- The `csv.reader` view of the decoded file. -/
def csvRows (text : List Char) : List (List String) :=
  (fileLines (stripBom text)).map splitRecord

/-- `dict(zip(fieldnames, row))` with `restval=None`: cells beyond the header
are dropped, headers beyond the row map to `None`; on duplicate headers the
last occurrence wins. -/
def rowGet (headers cells : List String) (col : String) : Option String :=
  let padded := cells.map some ++ List.replicate (headers.length - cells.length) none
  match (headers.zip padded).reverse.find? (fun p => p.1 = col) with
  | some p => p.2
  | none => none

/-! ## parse_coordinate_file -/

/-- One normalized row: origin, destination, optional display name. -/
structure Record where
  origin : ℚ × ℚ
  destination : ℚ × ℚ
  display_name : Option String
deriving DecidableEq, Repr

/-- Header-based format detection (source lines 110-126).  `headers?` is
`reader.fieldnames`, which is `None` for an input with no rows; Python then
raises `TypeError` at the first membership test `col in headers`.  The pair
returned is `(use_combined, use_separate)`; the separate columns are only
consulted when the combined ones did not match. -/
def detect_format (fmt : CsvFormat) (headers? : Option (List String)) :
    Except PyErr (Bool × Bool) :=
  let ucE : Except PyErr Bool :=
    match fmt.combined_coordinates with
    | none => Except.ok false
    | some cc =>
      match headers? with
      | none => Except.error PyErr.typeError
      | some hs =>
        Except.ok (hs.contains cc.origin_coord_column &&
                   hs.contains cc.destination_coord_column)
  match ucE with
  | Except.error e => Except.error e
  | Except.ok uc =>
    if uc then Except.ok (uc, false)
    else
      match fmt.separate_coordinates with
      | none => Except.ok (uc, false)
      | some sc =>
        match headers? with
        | none => Except.error PyErr.typeError
        | some hs =>
          Except.ok (uc,
            hs.contains sc.origin_lat_column &&
            hs.contains sc.origin_lon_column &&
            hs.contains sc.destination_lat_column &&
            hs.contains sc.destination_lon_column)

/-- The body of the row loop (source lines 128-161).  Every exception the
source catches there (`ValueError`, `KeyError`, and the generic handler that
absorbs the `TypeError` from feeding `None` to the regex or to `float`) makes
the row be skipped, i.e. yields `none`. -/
def processRow (fmt : CsvFormat) (uc : Bool) (headers cells : List String) :
    Option Record :=
  let display : Option String :=
    match fmt.segment_name_column with
    | some col => if col ≠ "" then rowGet headers cells col else none
    | none => none
  if uc then
    match fmt.combined_coordinates with
    | none => none
    | some cc =>
      match rowGet headers cells cc.origin_coord_column,
            rowGet headers cells cc.destination_coord_column with
      | some os, some ds =>
        match coordSearch os.data, coordSearch ds.data with
        | some o, some d => some ⟨o, d, display⟩
        | _, _ => none
      | _, _ => none
  else
    match fmt.separate_coordinates with
    | none => none
    | some sc =>
      match rowGet headers cells sc.origin_lat_column,
            rowGet headers cells sc.origin_lon_column,
            rowGet headers cells sc.destination_lat_column,
            rowGet headers cells sc.destination_lon_column with
      | some a, some b, some c, some d =>
        match pyFloat a, pyFloat b, pyFloat c, pyFloat d with
        | some la, some lo, some la2, some lo2 =>
          some ⟨(la, lo), (la2, lo2), display⟩
        | _, _, _, _ => none
      | _, _, _, _ => none

/-- `parse_coordinate_file` over already-lexed CSV rows.  `.error` is an
exception escaping the function, `.ok none` is the explicit `return None` of
the no-matching-format branch, `.ok (some l)` is the parsed data.
`DictReader` skips empty records during iteration. -/
def parse_rows (rows : List (List String)) (cfg : Config) :
    Except PyErr (Option (List Record)) :=
  let fmt := cfg.csv_format
  let headers? := rows.head?
  match detect_format fmt headers? with
  | Except.error e => Except.error e
  | Except.ok flags =>
    if flags.1 = false ∧ flags.2 = false then Except.ok none
    else
      let headers := headers?.getD []
      let dataRows := rows.tail.filter (fun r => r ≠ [])
      Except.ok (some (dataRows.filterMap (processRow fmt flags.1 headers)))

/-- `parse_coordinate_file` over the raw text of the file. -/
def parse_coordinate_file (text : List Char) (cfg : Config) :
    Except PyErr (Option (List Record)) :=
  parse_rows (csvRows text) cfg

/-! ## create_route_segment -/

/-- `display_name.lower().replace(' ', '-')` then
`re.sub(r'[^a-z0-9-]', '', ...)`. -/
def sanitize_display_name (s : List Char) : List Char :=
  ((s.map Char.toLower).map (fun c => if c = ' ' then '-' else c)).filter isRouteChar

/-- Character-level route-identifier derivation (source lines 169-178).
`f"{prefix}salt-lake-city-{counter}"` is written with the trailing hyphen of
the literal made explicit, so both branches share the shape
`stem ++ hyphen ++ digits`. -/
def derive_route_id_data (pfx : List Char) (dn : Option (List Char))
    (counter : Nat) : List Char :=
  match dn with
  | some s =>
    if s ≠ [] then pfx ++ sanitize_display_name s ++ '-' :: natDigits counter
    else pfx ++ "salt-lake-city".data ++ '-' :: natDigits counter
  | none => pfx ++ "salt-lake-city".data ++ '-' :: natDigits counter

/-- The selected route identifier as a string.  An empty display name is
falsy in Python, hence falls back to the fixed base name. -/
def derive_route_id (pfx : String) (dn : Option String) (counter : Nat) :
    String :=
  String.mk (derive_route_id_data pfx.data (dn.map String.data) counter)

/-- Outcome of `requests.post`: an HTTP response, a timeout (a subclass of
`RequestException`), another `RequestException`, or any other exception. -/
inductive PostOutcome where
  | response (status : Nat) (text : String)
  | timeout
  | requestException (msg : String)
  | otherException (msg : String)
deriving DecidableEq, Repr

/-- The request `create_route_segment` issues. -/
structure HttpRequest where
  url : String
  bearer : String
  user_project : String
  route_id : String
  origin_lat : ℚ
  origin_lon : ℚ
  dest_lat : ℚ
  dest_lon : ℚ
deriving DecidableEq, Repr

/-- `create_route_segment` (source lines 167-219): builds the identifier,
URL and payload, issues the request (the outcome of which is the oracle
argument), and classifies the result.  `True` exactly for status 200/201;
every handled exception path returns `False`.  This is the computation the
source performs once the line-195 logging call has succeeded;
`create_route_segment_run` below includes that call and its `NameError`. -/
def create_route_segment (token : String) (origin destination : ℚ × ℚ)
    (display_name : Option String) (route_id_counter : Nat)
    (google_project_id : String) (cfg : Config) (outcome : PostOutcome) :
    HttpRequest × Bool :=
  let selected := derive_route_id (cfg.route_name_pfx.getD "") display_name
    route_id_counter
  let url := "https://roads.googleapis.com/selection/v1/projects/" ++
    google_project_id ++ "/selectedRoutes?selectedRouteId=" ++ selected
  let req : HttpRequest :=
    ⟨url, token, google_project_id, selected,
     origin.1, origin.2, destination.1, destination.2⟩
  match outcome with
  | PostOutcome.response s _ => (req, s == 200 || s == 201)
  | _ => (req, false)

/-! ## The batch loop and main_route_creator -/

/-- What the loop over `parsed_data` has produced when it stops. -/
structure BatchResult where
  created : Nat
  attempted : Nat
  requests : List HttpRequest
  tokenFailed : Bool
deriving DecidableEq, Repr

/-- The batch loop (source lines 255-271).  `tokens i` is the result of the
`get_gcloud_token()` subprocess of the i-th attempted row (`none` models
the failure turned into `TokenGenerationError`); `outcomes i` is the network
outcome of that row's request.  The cap check precedes the attempt
increment, which precedes the token fetch.  This is the loop's computation
when every logging call succeeds; `route_loop_run` below threads the
logging effect. -/
def route_loop (maxRoutes : Nat) (tokens : Nat → Option String)
    (outcomes : Nat → PostOutcome) (cfg : Config) (pid : String) :
    List Record → Nat → Nat → List HttpRequest → BatchResult
  | [], created, attempted, reqs => ⟨created, attempted, reqs, false⟩
  | r :: rest, created, attempted, reqs =>
    if maxRoutes ≤ created then ⟨created, attempted, reqs, false⟩
    else
      match tokens (attempted + 1) with
      | none => ⟨created, attempted + 1, reqs, true⟩
      | some tok =>
        let step := create_route_segment tok r.origin r.destination
          r.display_name (attempted + 1) pid cfg (outcomes (attempted + 1))
        route_loop maxRoutes tokens outcomes cfg pid rest
          (if step.2 then created + 1 else created) (attempted + 1)
          (reqs ++ [step.1])

/-- `main_route_creator` (source lines 223-275) when every logging call
succeeds.  `.ok (code, r)` is a run reaching `sys.exit(code)` or falling off
the end (code 0); `r` carries the batch tally when the loop ran.  `.error`
is an exception escaping to the `__main__` handler.
`main_route_creator_run` below threads the logging effect. -/
def main_route_creator (cfg? : Option Config) (text : List Char)
    (tokens : Nat → Option String) (outcomes : Nat → PostOutcome) :
    Except PyErr (Nat × Option BatchResult) :=
  match cfg? with
  | none => Except.ok (1, none)
  | some cfg =>
    match cfg.google_project_id with
    | none => Except.ok (1, none)
    | some pid =>
      let maxRoutes := cfg.max_routes_to_create.getD 100
      match parse_coordinate_file text cfg with
      | Except.error e => Except.error e
      | Except.ok none => Except.ok (1, none)
      | Except.ok (some []) => Except.ok (0, none)
      | Except.ok (some parsed) =>
        Except.ok (0,
          some (route_loop maxRoutes tokens outcomes cfg pid parsed 0 0 []))

/-- Process exit status of the `__main__` block: an exception reaching the
catch-all handler ends in `sys.exit(1)`; otherwise the code decided inside
`main_route_creator` stands (0 when it returns normally). -/
def script_exit (r : Except PyErr (Nat × Option BatchResult)) : Nat :=
  match r with
  | Except.error _ => 1
  | Except.ok p => p.1

/-! ## The logging layer -/

/-- Names bound at module level in `create_routes_in_jurisdiction.py`:
the imports and the top-level classes and functions.  No statement in the
module ever assigns `LOG_FILE`. -/
def module_globals : List String :=
  ["requests", "json", "time", "datetime", "sys", "traceback", "os",
   "subprocess", "re", "argparse", "csv", "random", "string", "yaml",
   "TokenGenerationError", "APIRequestError", "write_log",
   "get_gcloud_token", "load_config", "parse_coordinate_file",
   "create_route_segment", "main_route_creator"]

/-- Running the body of `write_log` under a set of module globals: after the
timestamp formatting and the console print, `open(LOG_FILE, 'a', ...)` must
evaluate the global name `LOG_FILE`; if it is unbound the call raises
`NameError` before touching any file. -/
def write_log_run (globals : List String) (message : String) :
    Except PyErr Unit :=
  if globals.contains "LOG_FILE" then Except.ok () else
    Except.error (PyErr.nameError "LOG_FILE")

/-- The first statement of `main_route_creator` is
`write_log("Route Creator Script started.")`; it runs before the
configuration load, the CSV parse, any token fetch and any network request. -/
def main_route_creator_entry (globals : List String) : Except PyErr Unit :=
  write_log_run globals "Route Creator Script started."

/-- The full effect of one `write_log` call on the log file's content, over
a set of module globals.  The console print (line 50) comes first; the
`open(LOG_FILE, 'a', ...)` at line 51 then evaluates `LOG_FILE`, and when it
is unbound the call raises `NameError` before any file operation, leaving
the content unchanged.  When `LOG_FILE` is bound, the mode-'a' open appends
exactly one timestamped line. -/
def write_log_effect (globals : List String)
    (content timestamp message : List Char) :
    Except PyErr Unit × List Char :=
  if globals.contains "LOG_FILE" then
    (Except.ok (),
     content ++ '[' :: (timestamp ++ ']' :: ' ' :: (message ++ ['\n'])))
  else (Except.error (PyErr.nameError "LOG_FILE"), content)

/-- The log-file state through the start of `main_route_creator`, on one
file state: the first statement is a `write_log`, and only when it succeeds
does execution reach lines 239-241, which open the configured log file with
mode 'w' and truncate it.  (In the program `LOG_FILE` is unbound, so only
the error branch is ever taken and the file is never touched; the success
branch records the latent behaviour of the source text, reading `LOG_FILE`
and the configured `log_file` as the same activity log.) -/
def main_start_log_state (globals : List String)
    (content timestamp : List Char) : Except PyErr Unit × List Char :=
  match write_log_effect globals content timestamp
      "Route Creator Script started.".data with
  | (Except.error e, c) => (Except.error e, c)
  | (Except.ok _, _) => (Except.ok (), [])

/-! ## The pipeline with the logging effect -/

/-- Success classification of one network outcome: HTTP 200 or 201. -/
def submit_ok (o : PostOutcome) : Bool :=
  match o with
  | PostOutcome.response s _ => s == 200 || s == 201
  | _ => false

/-- The number of successful submissions among iterations a+1 .. a+k. -/
def successes (outcomes : Nat → PostOutcome) : Nat → Nat → Nat
  | _, 0 => 0
  | a, k + 1 =>
    (if submit_ok (outcomes (a + 1)) then 1 else 0) +
      successes outcomes (a + 1) k

/-- `create_route_segment` with the logging effect: the `write_log` at line
195 precedes the `try:` at line 197, so when it raises (i.e. when `LOG_FILE`
is unbound) the exception escapes the function and no request has been
issued.  When it succeeds, `LOG_FILE` is bound, hence the later logging
calls (lines 203, 211, 215, 218) also succeed and the try/except
classification is exactly the plain `create_route_segment`. -/
def create_route_segment_run (globals : List String) (token : String)
    (origin destination : ℚ × ℚ) (display_name : Option String)
    (route_id_counter : Nat) (google_project_id : String) (cfg : Config)
    (outcome : PostOutcome) : List HttpRequest × Except PyErr Bool :=
  let step := create_route_segment token origin destination display_name
    route_id_counter google_project_id cfg outcome
  match write_log_run globals
      ("Attempting to create route: " ++ step.1.route_id) with
  | Except.error e => ([], Except.error e)
  | Except.ok _ => ([step.1], Except.ok step.2)

/-- `get_gcloud_token` with the logging effect: the `write_log` at line 63
runs before the subprocess.  When it raises `NameError`, the generic
`except Exception` handler at line 81 calls `write_log` again, which raises
once more, so the `NameError` escapes (it is never turned into
`TokenGenerationError`).  When it succeeds, the later logging calls succeed
too and the subprocess result decides: `.ok (some tok)` is a returned token,
`.ok none` a raised `TokenGenerationError`. -/
def get_gcloud_token_run (globals : List String) (res : Option String) :
    Except PyErr (Option String) :=
  match write_log_run globals "Attempting to fetch gcloud access token..." with
  | Except.error e => Except.error e
  | Except.ok _ => Except.ok res

/-- The batch loop with the logging effect (source lines 255-271): the
cap-stop branch logs at line 257 before breaking, the token-failure handler
logs at line 265 before breaking, and both the token fetch and the
submission carry their own logging; each of those logging calls raises
`NameError` and escapes the loop when `LOG_FILE` is unbound. -/
def route_loop_run (globals : List String) (maxRoutes : Nat)
    (tokens : Nat → Option String) (outcomes : Nat → PostOutcome)
    (cfg : Config) (pid : String) :
    List Record → Nat → Nat → List HttpRequest → Except PyErr BatchResult
  | [], created, attempted, reqs =>
    Except.ok ⟨created, attempted, reqs, false⟩
  | r :: rest, created, attempted, reqs =>
    if maxRoutes ≤ created then
      match write_log_run globals "Reached maximum routes to create. Stopping." with
      | Except.error e => Except.error e
      | Except.ok _ => Except.ok ⟨created, attempted, reqs, false⟩
    else
      match get_gcloud_token_run globals (tokens (attempted + 1)) with
      | Except.error e => Except.error e
      | Except.ok none =>
        match write_log_run globals
            "Failed to obtain gcloud token. Skipping further route creations." with
        | Except.error e => Except.error e
        | Except.ok _ => Except.ok ⟨created, attempted + 1, reqs, true⟩
      | Except.ok (some tok) =>
        match create_route_segment_run globals tok r.origin r.destination
            r.display_name (attempted + 1) pid cfg
            (outcomes (attempted + 1)) with
        | (_, Except.error e) => Except.error e
        | (issued, Except.ok ok) =>
          route_loop_run globals maxRoutes tokens outcomes cfg pid rest
            (if ok then created + 1 else created) (attempted + 1)
            (reqs ++ issued)

/-- `main_route_creator` with the logging effect: the `write_log` at line
225 is the first statement; when it raises, nothing else runs.  When it
succeeds, `LOG_FILE` is bound, so every later logging call (in
`load_config`, `parse_coordinate_file`, the loop, and the tally at lines
273-275) succeeds as well, and the remaining control flow is the plain
`main_route_creator` with the loop replaced by `route_loop_run`. -/
def main_route_creator_run (globals : List String) (cfg? : Option Config)
    (text : List Char) (tokens : Nat → Option String)
    (outcomes : Nat → PostOutcome) :
    Except PyErr (Nat × Option BatchResult) :=
  match write_log_run globals "Route Creator Script started." with
  | Except.error e => Except.error e
  | Except.ok _ =>
    match cfg? with
    | none => Except.ok (1, none)
    | some cfg =>
      match cfg.google_project_id with
      | none => Except.ok (1, none)
      | some pid =>
        let maxRoutes := cfg.max_routes_to_create.getD 100
        match parse_coordinate_file text cfg with
        | Except.error e => Except.error e
        | Except.ok none => Except.ok (1, none)
        | Except.ok (some []) => Except.ok (0, none)
        | Except.ok (some parsed) =>
          match route_loop_run globals maxRoutes tokens outcomes cfg pid
              parsed 0 0 [] with
          | Except.error e => Except.error e
          | Except.ok res => Except.ok (0, some res)

/-! ## Decimal digit strings -/

theorem digitChar_facts : ∀ d : Nat, d < 10 →
    (Nat.digitChar d).isDigit = true ∧ (Nat.digitChar d).toNat - 48 = d := by
  decide

theorem natDigitsAux_digit : ∀ (fuel n : Nat), n < fuel →
    ∀ c ∈ natDigitsAux fuel n, c.isDigit = true := by
  intro fuel
  induction fuel with
  | zero => intro n h; omega
  | succ f ih =>
    intro n hn c hc
    rw [natDigitsAux] at hc
    split at hc
    next h =>
      simp only [List.mem_singleton] at hc
      subst hc
      exact (digitChar_facts n h).1
    next h =>
      rw [List.mem_append] at hc
      rcases hc with hcl | hcr
      · exact ih (n / 10) (by omega) c hcl
      · simp only [List.mem_singleton] at hcr
        subst hcr
        exact (digitChar_facts (n % 10) (Nat.mod_lt _ (by omega))).1

theorem natDigits_digit : ∀ (n : Nat), ∀ c ∈ natDigits n, c.isDigit = true :=
  fun n => natDigitsAux_digit (n + 1) n (by omega)

theorem digitsVal_append_one (l : List Char) (c : Char) :
    digitsVal (l ++ [c]) = 10 * digitsVal l + (c.toNat - 48) := by
  simp [digitsVal, List.foldl_append]

theorem digitsVal_natDigitsAux : ∀ (fuel n : Nat), n < fuel →
    digitsVal (natDigitsAux fuel n) = n := by
  intro fuel
  induction fuel with
  | zero => intro n h; omega
  | succ f ih =>
    intro n hn
    rw [natDigitsAux]
    split
    next h =>
      have hd := (digitChar_facts n h).2
      simpa [digitsVal] using hd
    next h =>
      have hx := ih (n / 10) (by omega)
      have hmod := (digitChar_facts (n % 10) (Nat.mod_lt _ (by omega))).2
      rw [digitsVal_append_one, hx, hmod]
      omega

theorem digitsVal_natDigits : ∀ n : Nat, digitsVal (natDigits n) = n :=
  fun n => digitsVal_natDigitsAux (n + 1) n (by omega)

theorem natDigits_inj {m n : Nat} (h : natDigits m = natDigits n) : m = n := by
  have hm := digitsVal_natDigits m
  rw [h, digitsVal_natDigits] at hm
  omega

theorem takeWhile_all_append (p : Char → Bool) :
    ∀ (l : List Char) (m : Char) (r : List Char),
      (∀ c ∈ l, p c = true) → p m = false →
      (l ++ m :: r).takeWhile p = l := by
  intro l
  induction l with
  | nil =>
    intro m r _ hm
    simp [List.takeWhile_cons, hm]
  | cons a t ih =>
    intro m r hl hm
    have ha : p a = true := hl a (by simp)
    simp only [List.cons_append, List.takeWhile_cons, ha, if_true]
    rw [ih m r (fun c hc => hl c (by simp [hc])) hm]

/-- Two strings of the shape `stem ++ '-' ++ digits` are equal only when the
digit tails agree: the digits after the last hyphen are recovered by
`takeWhile` on the reversal. -/
theorem hyphen_digits_eq {s1 s2 d1 d2 : List Char}
    (h1 : ∀ c ∈ d1, c.isDigit = true) (h2 : ∀ c ∈ d2, c.isDigit = true)
    (h : s1 ++ '-' :: d1 = s2 ++ '-' :: d2) : d1 = d2 := by
  have hrev := congrArg List.reverse h
  simp only [List.reverse_append, List.reverse_cons, List.append_assoc,
    List.singleton_append] at hrev
  have ht := congrArg (List.takeWhile (fun c => c.isDigit)) hrev
  rw [takeWhile_all_append _ _ _ _ (fun c hc => h1 c (List.mem_reverse.mp hc)) (by decide),
      takeWhile_all_append _ _ _ _ (fun c hc => h2 c (List.mem_reverse.mp hc)) (by decide)] at ht
  exact List.reverse_injective ht

theorem shape_counter_eq {a b : List Char} {c1 c2 : Nat}
    (h : a ++ '-' :: natDigits c1 = b ++ '-' :: natDigits c2) : c1 = c2 :=
  natDigits_inj
    (hyphen_digits_eq (natDigits_digit c1) (natDigits_digit c2) h)

theorem derive_route_id_data_counter_eq (pfx : List Char)
    (dn1 dn2 : Option (List Char)) {c1 c2 : Nat}
    (h : derive_route_id_data pfx dn1 c1 = derive_route_id_data pfx dn2 c2) :
    c1 = c2 := by
  rcases dn1 with _ | s1 <;> rcases dn2 with _ | s2 <;>
    simp only [derive_route_id_data] at h
  · exact shape_counter_eq h
  · split_ifs at h <;> exact shape_counter_eq h
  · split_ifs at h <;> exact shape_counter_eq h
  · split_ifs at h <;> exact shape_counter_eq h

/-- Claim C2: within one run (one configuration, hence one shared name
stem), the route identifiers built by `create_route_segment` differ whenever
the sequence counters differ, for every combination of labels, including
identical and absent labels: the decimal counter after the final hyphen is
recovered uniquely from the identifier. -/
theorem c2_route_ids_distinct (cfg : Config) (tok1 tok2 : String)
    (o1 o2 d1 d2 : ℚ × ℚ) (dn1 dn2 : Option String) (c1 c2 : Nat)
    (pid : String) (out1 out2 : PostOutcome) (hne : c1 ≠ c2) :
    (create_route_segment tok1 o1 d1 dn1 c1 pid cfg out1).1.route_id ≠
    (create_route_segment tok2 o2 d2 dn2 c2 pid cfg out2).1.route_id := by
  intro h
  apply hne
  have hid : derive_route_id (cfg.route_name_pfx.getD "") dn1 c1 =
      derive_route_id (cfg.route_name_pfx.getD "") dn2 c2 := by
    cases out1 <;> cases out2 <;> simpa [create_route_segment] using h
  have hdata : derive_route_id_data (cfg.route_name_pfx.getD "").data
      (dn1.map String.data) c1 =
      derive_route_id_data (cfg.route_name_pfx.getD "").data
      (dn2.map String.data) c2 := by
    have := congrArg String.data hid
    simpa [derive_route_id] using this
  exact derive_route_id_data_counter_eq _ _ _ hdata

/-- Configuration used by the C2 witness. -/
def cfgW2 : Config :=
  { google_project_id := some "proj"
    log_file := none
    max_routes_to_create := some 100
    route_name_pfx := some "boston-"
    csv_format :=
      { combined_coordinates := some ⟨"origin", "dest"⟩
        separate_coordinates := none
        segment_name_column := some "name" } }

theorem c2_route_ids_distinct_witness :
    (create_route_segment "t" (1, 2) (3, 4) (some "Main St") 1 "proj" cfgW2
      (PostOutcome.response 200 "")).1.route_id ≠
    (create_route_segment "t" (1, 2) (3, 4) (some "Main St") 2 "proj" cfgW2
      (PostOutcome.response 200 "")).1.route_id :=
  c2_route_ids_distinct cfgW2 "t" "t" (1, 2) (3, 4) (1, 2) (3, 4)
    (some "Main St") (some "Main St") 1 2 "proj"
    (PostOutcome.response 200 "") (PostOutcome.response 200 "") (by decide)

/-- Claim C1: the module never assigns `LOG_FILE`, so `write_log` raises
`NameError` on every message, and `main_route_creator`, whose first statement
is a `write_log` call, raises before configuration loading, CSV parsing,
token fetching or any network request. -/
theorem c1_log_file_unbound :
    (∀ message : String, write_log_run module_globals message =
      Except.error (PyErr.nameError "LOG_FILE")) ∧
    main_route_creator_entry module_globals =
      Except.error (PyErr.nameError "LOG_FILE") := by
  exact ⟨fun _ => rfl, rfl⟩

/-- Claim C6: when the header satisfies the combined columns, the combined
encoding is selected no matter whether the separate columns are also all
present; the separate block is only reached when the combined test failed. -/
theorem c6_combined_priority (fmt : CsvFormat) (cc : CombinedCols)
    (sc : SeparateCols) (hs : List String)
    (hcc : fmt.combined_coordinates = some cc)
    (hsc : fmt.separate_coordinates = some sc)
    (h1 : cc.origin_coord_column ∈ hs)
    (h2 : cc.destination_coord_column ∈ hs)
    (h3 : sc.origin_lat_column ∈ hs)
    (h4 : sc.origin_lon_column ∈ hs)
    (h5 : sc.destination_lat_column ∈ hs)
    (h6 : sc.destination_lon_column ∈ hs) :
    detect_format fmt (some hs) = Except.ok (true, false) := by
  simp [detect_format, hcc, hsc, h1, h2]

theorem c6_combined_priority_witness :
    detect_format
      { combined_coordinates := some ⟨"origin", "dest"⟩
        separate_coordinates := some ⟨"olat", "olon", "dlat", "dlon"⟩
        segment_name_column := none }
      (some ["name", "origin", "dest", "olat", "olon", "dlat", "dlon"]) =
    Except.ok (true, false) :=
  c6_combined_priority _ ⟨"origin", "dest"⟩ ⟨"olat", "olon", "dlat", "dlon"⟩
    ["name", "origin", "dest", "olat", "olon", "dlat", "dlon"]
    rfl rfl (by decide) (by decide) (by decide) (by decide) (by decide)
    (by decide)

/-! ## C8: empty files and byte-order marks -/

/-- Configuration with a combined coordinate encoding, used for claim C8. -/
def cfgC8 : Config :=
  { google_project_id := some "proj"
    log_file := none
    max_routes_to_create := none
    route_name_pfx := none
    csv_format :=
      { combined_coordinates := some ⟨"origin", "dest"⟩
        separate_coordinates := none
        segment_name_column := none } }

/-- Counterexample to claim C8: on a truly empty CSV file (no header row)
the reader's fieldnames are `None`, and the header-membership test of the
configured combined encoding raises `TypeError`; `parse_coordinate_file`
does not return an empty sequence. -/
theorem c8_empty_file_counterexample :
    parse_coordinate_file [] cfgC8 = Except.error PyErr.typeError ∧
    parse_coordinate_file [] cfgC8 ≠ Except.ok (some []) := by
  have h : parse_coordinate_file [] cfgC8 = Except.error PyErr.typeError := rfl
  refine ⟨h, ?_⟩
  rw [h]
  intro hc
  exact Except.noConfusion hc

/-- Claim C8 amended: an empty CSV file makes `parse_coordinate_file` raise
`TypeError` once a coordinate encoding is configured (instead of returning an
empty sequence); a CSV with a matching header row and no data rows does
return the empty sequence; and a byte-order mark before the header does not
change the result of parsing. -/
theorem c8_amended_empty_header_bom :
    (∀ cfg cc, cfg.csv_format.combined_coordinates = some cc →
      parse_coordinate_file [] cfg = Except.error PyErr.typeError) ∧
    (∀ cfg (hrow : List String) (uc us : Bool),
      detect_format cfg.csv_format (some hrow) = Except.ok (uc, us) →
      uc = true ∨ us = true →
      parse_rows [hrow] cfg = Except.ok (some [])) ∧
    (∀ cfg (text : List Char), text.head? ≠ some '﻿' →
      parse_coordinate_file ('﻿' :: text) cfg =
        parse_coordinate_file text cfg) := by
  refine ⟨?_, ?_, ?_⟩
  · intro cfg cc hcc
    simp [parse_coordinate_file, csvRows, fileLines, stripBom, parse_rows,
      detect_format, hcc]
  · intro cfg hrow uc us hdet hor
    rcases hor with rfl | rfl <;>
      simp [parse_rows, hdet]
  · intro cfg text hbom
    have h1 : stripBom ('﻿' :: text) = text := by
      simp [stripBom]
    have h2 : stripBom text = text := by
      simp [stripBom, hbom]
    simp only [parse_coordinate_file, csvRows, h1, h2]

theorem c8_amended_witness :
    parse_coordinate_file [] cfgC8 = Except.error PyErr.typeError ∧
    parse_rows [["name", "origin", "dest"]] cfgC8 = Except.ok (some []) ∧
    parse_coordinate_file ('﻿' :: "name,origin,dest\n".data) cfgC8 =
      parse_coordinate_file "name,origin,dest\n".data cfgC8 :=
  ⟨c8_amended_empty_header_bom.1 cfgC8 ⟨"origin", "dest"⟩ rfl,
   c8_amended_empty_header_bom.2.1 cfgC8 ["name", "origin", "dest"] true false
     rfl (Or.inl rfl),
   c8_amended_empty_header_bom.2.2 cfgC8 "name,origin,dest\n".data (by decide)⟩

/-! ## C9: the activity log -/

/-! ## C10: the coordinate pattern under re.search -/

/-- A maximal token of the sub-pattern `-?\d+\.?\d*`: optional minus sign,
nonempty integer digits, optional decimal point, fractional digits. -/
structure NumTok where
  neg : Bool
  intDs : List Char
  dot : Bool
  fracDs : List Char

/-- The text of a number token. -/
def NumTok.chars (t : NumTok) : List Char :=
  (if t.neg then ['-'] else []) ++ t.intDs ++
    (if t.dot then ['.'] else []) ++ t.fracDs

/-- Well-formedness of a token: the integer digits are nonempty, all digit
characters are digits, and fractional digits require the decimal point. -/
def NumTok.valid (t : NumTok) : Prop :=
  t.intDs ≠ [] ∧ (∀ c ∈ t.intDs, c.isDigit = true) ∧
    (∀ c ∈ t.fracDs, c.isDigit = true) ∧ (t.dot = false → t.fracDs = [])

/-- The exact decimal value of the token text: the digits scaled by the
decimal point, as a single normalized rational. -/
def NumTok.val (t : NumTok) : ℚ :=
  let den : Nat := 10 ^ t.fracDs.length
  let scaled : Int := (digitsVal t.intDs * den + digitsVal t.fracDs : Nat)
  mkRat (if t.neg then -scaled else scaled) den

/-- All characters whitespace in the sense of the regex `\s`. -/
def AllWs (w : List Char) : Prop := ∀ c ∈ w, isPySpace c = true

/-- `m` is a full match of the coordinate pattern
`\(\s*(-?\d+\.?\d*)\s*,\s*(-?\d+\.?\d*)\s*\)` whose two groups have the
decimal values `v1` and `v2`. -/
def CoordMatch (m : List Char) (v1 v2 : ℚ) : Prop :=
  ∃ (t1 t2 : NumTok) (w1 w2 w3 w4 : List Char),
    t1.valid ∧ t2.valid ∧ AllWs w1 ∧ AllWs w2 ∧ AllWs w3 ∧ AllWs w4 ∧
    m = '(' :: (w1 ++ (t1.chars ++ (w2 ++ (',' ::
      (w3 ++ (t2.chars ++ (w4 ++ [')']))))))) ∧
    v1 = t1.val ∧ v2 = t2.val

theorem pySpace_cases {c : Char} (h : isPySpace c = true) :
    c = ' ' ∨ c = '\t' ∨ c = '\n' ∨ c = '\r' ∨ c = '\x0b' ∨ c = '\x0c' := by
  simp [isPySpace] at h
  tauto

theorem ws_not_digit {c : Char} (h : isPySpace c = true) : c.isDigit = false := by
  rcases pySpace_cases h with rfl | rfl | rfl | rfl | rfl | rfl <;> decide

theorem ws_ne_dot {c : Char} (h : isPySpace c = true) : c ≠ '.' := by
  rcases pySpace_cases h with rfl | rfl | rfl | rfl | rfl | rfl <;> decide

theorem digit_not_ws {c : Char} (h : c.isDigit = true) : isPySpace c = false := by
  cases hw : isPySpace c
  · rfl
  · rw [ws_not_digit hw] at h
    exact absurd h (by decide)

theorem digit_ne_hyphen {c : Char} (h : c.isDigit = true) : c ≠ '-' := by
  intro hc
  subst hc
  exact absurd h (by decide)

theorem skipWs_ws_append : ∀ (w rest : List Char), AllWs w →
    (∀ c, rest.head? = some c → isPySpace c = false) →
    skipWs (w ++ rest) = rest := by
  intro w
  induction w with
  | nil =>
    intro rest _ hr
    cases rest with
    | nil => rfl
    | cons c cs => simp [skipWs, hr c rfl]
  | cons a t ih =>
    intro rest hw hr
    have ha : isPySpace a = true := hw a (by simp)
    simp only [List.cons_append, skipWs, ha, if_true]
    exact ih rest (fun c hc => hw c (by simp [hc])) hr

theorem spanDigits_append : ∀ (d rest : List Char),
    (∀ c ∈ d, c.isDigit = true) →
    (∀ c, rest.head? = some c → c.isDigit = false) →
    spanDigits (d ++ rest) = (d, rest) := by
  intro d
  induction d with
  | nil =>
    intro rest _ hr
    cases rest with
    | nil => rfl
    | cons c cs => simp [spanDigits, hr c rfl]
  | cons a t ih =>
    intro rest hd hr
    have ha : a.isDigit = true := hd a (by simp)
    simp [spanDigits, ha, ih rest (fun c hc => hd c (by simp [hc])) hr]

theorem numTok_head_not_ws (t : NumTok) (hv : t.valid) (l : List Char) :
    ∀ c, (t.chars ++ l).head? = some c → isPySpace c = false := by
  obtain ⟨neg, ds, dot, fs⟩ := t
  obtain ⟨hne, hint, -, -⟩ := hv
  simp only at hne hint
  obtain ⟨c0, ds0, rfl⟩ := List.exists_cons_of_ne_nil hne
  intro c hc
  cases neg with
  | true =>
    simp [NumTok.chars] at hc
    subst hc
    decide
  | false =>
    simp [NumTok.chars] at hc
    subst hc
    exact digit_not_ws (hint c0 (by simp))

theorem parseNum_token (t : NumTok) (rest : List Char) (hv : t.valid)
    (hr : ∀ c, rest.head? = some c → c.isDigit = false ∧ c ≠ '.') :
    parseNum (t.chars ++ rest) = some (t.val, rest) := by
  obtain ⟨neg, ds, dot, fs⟩ := t
  obtain ⟨hne, hint, hfrac, hdotf⟩ := hv
  simp only at hne hint hfrac hdotf
  obtain ⟨c0, ds0, rfl⟩ := List.exists_cons_of_ne_nil hne
  have hc0 : c0.isDigit = true := hint c0 (by simp)
  have hrd : ∀ c, rest.head? = some c → c.isDigit = false :=
    fun c hc => (hr c hc).1
  have hdotp : rest.head? ≠ some '.' := by
    cases rest with
    | nil => simp
    | cons c cs => simpa using (hr c rfl).2
  cases dot with
  | false =>
    have hfs : fs = [] := hdotf rfl
    subst hfs
    have hspan : spanDigits (c0 :: (ds0 ++ rest)) = (c0 :: ds0, rest) := by
      have := spanDigits_append (c0 :: ds0) rest hint hrd
      simpa using this
    cases neg with
    | false =>
      simp only [NumTok.chars, NumTok.val, Bool.false_eq_true, if_false,
        List.nil_append, List.append_nil]
      simp [parseNum, digit_ne_hyphen hc0, hspan, hdotp]
    | true =>
      simp only [NumTok.chars, NumTok.val, if_true, List.append_nil,
        List.nil_append, List.cons_append, List.singleton_append]
      simp [parseNum, hspan, hdotp]
  | true =>
    have hspan1 : spanDigits (c0 :: (ds0 ++ ('.' :: (fs ++ rest)))) =
        (c0 :: ds0, '.' :: (fs ++ rest)) := by
      have := spanDigits_append (c0 :: ds0) ('.' :: (fs ++ rest)) hint
        (by intro c hc; simp at hc; subst hc; decide)
      simpa using this
    have hspan2 : spanDigits (fs ++ rest) = (fs, rest) :=
      spanDigits_append _ _ hfrac hrd
    cases neg with
    | false =>
      simp only [NumTok.chars, NumTok.val, Bool.false_eq_true, if_false,
        if_true, List.nil_append]
      simp [parseNum, digit_ne_hyphen hc0, List.append_assoc, hspan1, hspan2]
    | true =>
      simp only [NumTok.chars, NumTok.val, if_true, List.nil_append,
        List.cons_append, List.singleton_append]
      simp [parseNum, List.append_assoc, hspan1, hspan2]

theorem head_ws_or (w : List Char) (hw : AllWs w) (b : Char) (l : List Char) :
    ∀ c, (w ++ b :: l).head? = some c → isPySpace c = true ∨ c = b := by
  cases w with
  | nil =>
    intro c hc
    simp at hc
    exact Or.inr hc.symm
  | cons a t =>
    intro c hc
    simp at hc
    subst hc
    exact Or.inl (hw a (by simp))

theorem tryParse_match (t1 t2 : NumTok) (w1 w2 w3 w4 post : List Char)
    (hv1 : t1.valid) (hv2 : t2.valid)
    (hw1 : AllWs w1) (hw2 : AllWs w2) (hw3 : AllWs w3) (hw4 : AllWs w4) :
    tryParse (('(' :: (w1 ++ (t1.chars ++ (w2 ++ (',' ::
        (w3 ++ (t2.chars ++ (w4 ++ [')'])))))))) ++ post) =
      some (t1.val, t2.val, post) := by
  have h6 : skipWs (w4 ++ (')' :: post)) = ')' :: post :=
    skipWs_ws_append w4 _ hw4 (by intro c hc; simp at hc; subst hc; decide)
  have hcond2 : ∀ c, (w4 ++ (')' :: post)).head? = some c →
      c.isDigit = false ∧ c ≠ '.' := by
    intro c hc
    rcases head_ws_or w4 hw4 ')' post c hc with h | rfl
    · exact ⟨ws_not_digit h, ws_ne_dot h⟩
    · exact ⟨by decide, by decide⟩
  have h4 : parseNum (t2.chars ++ (w4 ++ (')' :: post))) =
      some (t2.val, w4 ++ (')' :: post)) :=
    parseNum_token t2 _ hv2 hcond2
  have h5 : skipWs (w3 ++ (t2.chars ++ (w4 ++ (')' :: post)))) =
      t2.chars ++ (w4 ++ (')' :: post)) :=
    skipWs_ws_append w3 _ hw3 (numTok_head_not_ws t2 hv2 _)
  have h3 : skipWs (w2 ++ (',' :: (w3 ++ (t2.chars ++ (w4 ++ (')' :: post)))))) =
      ',' :: (w3 ++ (t2.chars ++ (w4 ++ (')' :: post)))) :=
    skipWs_ws_append w2 _ hw2 (by intro c hc; simp at hc; subst hc; decide)
  have hcond1 : ∀ c,
      (w2 ++ (',' :: (w3 ++ (t2.chars ++ (w4 ++ (')' :: post)))))).head? = some c →
      c.isDigit = false ∧ c ≠ '.' := by
    intro c hc
    rcases head_ws_or w2 hw2 ',' _ c hc with h | rfl
    · exact ⟨ws_not_digit h, ws_ne_dot h⟩
    · exact ⟨by decide, by decide⟩
  have h2 : parseNum (t1.chars ++
      (w2 ++ (',' :: (w3 ++ (t2.chars ++ (w4 ++ (')' :: post))))))) =
      some (t1.val, w2 ++ (',' :: (w3 ++ (t2.chars ++ (w4 ++ (')' :: post)))))) :=
    parseNum_token t1 _ hv1 hcond1
  have h1 : skipWs (w1 ++ (t1.chars ++
      (w2 ++ (',' :: (w3 ++ (t2.chars ++ (w4 ++ (')' :: post)))))))) =
      t1.chars ++ (w2 ++ (',' :: (w3 ++ (t2.chars ++ (w4 ++ (')' :: post)))))) :=
    skipWs_ws_append w1 _ hw1 (numTok_head_not_ws t1 hv1 _)
  simp [tryParse, h1, h2, h3, h4, h5, h6]

theorem coordSearch_of_tryParse {xs : List Char} {v1 v2 : ℚ} {r : List Char}
    (h : tryParse xs = some (v1, v2, r)) : coordSearch xs = some (v1, v2) := by
  cases xs with
  | nil => simp [tryParse] at h
  | cons c cs => simp [coordSearch, h]

theorem coordSearch_append_isSome : ∀ (pre ys : List Char),
    (coordSearch ys).isSome = true → (coordSearch (pre ++ ys)).isSome = true := by
  intro pre
  induction pre with
  | nil => intro ys h; simpa using h
  | cons c p ih =>
    intro ys h
    simp only [List.cons_append, coordSearch]
    cases htp : tryParse (c :: (p ++ ys)) with
    | some v => simp
    | none => simpa using ih ys h

/-! ## C5: the worked example -/

/-- Configuration of the worked example of claim C5. -/
def cfgC5 : Config :=
  { google_project_id := some "proj"
    log_file := none
    max_routes_to_create := some 100
    route_name_pfx := some "boston-"
    csv_format :=
      { combined_coordinates := some ⟨"origin", "dest"⟩
        separate_coordinates := none
        segment_name_column := some "name" } }

/-- The CSV text of the worked example of claim C5. -/
def csvC5 : String :=
  "name,origin,dest\n\"Main St Bridge\",\"(42.35, -71.06)\",\"(42.36, -71.05)\"\n"

/-- Claim C5: for the example CSV under the combined encoding with
segment_name_column name and a boston- name stem, extraction yields one
record with origin (42.35, -71.06), destination (42.36, -71.05) and label
Main St Bridge; the identifier derived for counter 1 is
boston-main-st-bridge-1 (lower-cased, spaces to hyphens, other characters
stripped); and the request built by create_route_segment carries origin
latitude 42.35 and origin longitude -71.06. -/
theorem c5_worked_example :
    parse_coordinate_file csvC5.data cfgC5 =
      Except.ok (some [⟨(mkRat 4235 100, mkRat (-7106) 100),
        (mkRat 4236 100, mkRat (-7105) 100), some "Main St Bridge"⟩]) ∧
    derive_route_id "boston-" (some "Main St Bridge") 1 =
      "boston-main-st-bridge-1" ∧
    (create_route_segment "tok" (mkRat 4235 100, mkRat (-7106) 100)
        (mkRat 4236 100, mkRat (-7105) 100) (some "Main St Bridge") 1 "proj"
        cfgC5 (PostOutcome.response 200 "")).1.route_id =
      "boston-main-st-bridge-1" ∧
    (create_route_segment "tok" (mkRat 4235 100, mkRat (-7106) 100)
        (mkRat 4236 100, mkRat (-7105) 100) (some "Main St Bridge") 1 "proj"
        cfgC5 (PostOutcome.response 200 "")).1.origin_lat = mkRat 4235 100 ∧
    (create_route_segment "tok" (mkRat 4235 100, mkRat (-7106) 100)
        (mkRat 4236 100, mkRat (-7105) 100) (some "Main St Bridge") 1 "proj"
        cfgC5 (PostOutcome.response 200 "")).1.origin_lon = mkRat (-7106) 100 :=
  ⟨rfl, by decide, by decide, by decide, by decide⟩

/-! ## C3 and C4: the batch loop -/

theorem route_loop_all_success (maxR : Nat) (tokens : Nat → Option String)
    (outcomes : Nat → PostOutcome) (cfg : Config) (pid : String)
    (htok : ∀ i, (tokens i).isSome = true)
    (hout : ∀ i, ∃ s b, outcomes i = PostOutcome.response s b ∧
      (s = 200 ∨ s = 201)) :
    ∀ (recs : List Record) (created attempted : Nat) (reqs : List HttpRequest),
      created ≤ maxR → maxR < created + recs.length →
      (route_loop maxR tokens outcomes cfg pid recs created attempted
        reqs).created = maxR ∧
      (route_loop maxR tokens outcomes cfg pid recs created attempted
        reqs).attempted = attempted + (maxR - created) ∧
      (route_loop maxR tokens outcomes cfg pid recs created attempted
        reqs).requests.length = reqs.length + (maxR - created) ∧
      (route_loop maxR tokens outcomes cfg pid recs created attempted
        reqs).tokenFailed = false := by
  intro recs
  induction recs with
  | nil =>
    intro created attempted reqs h1 h2
    simp at h2
    omega
  | cons r rest ih =>
    intro created attempted reqs h1 h2
    by_cases hc : maxR ≤ created
    · have hcm : created = maxR := le_antisymm h1 hc
      subst hcm
      simp [route_loop, hc]
    · obtain ⟨tok, htk⟩ := Option.isSome_iff_exists.mp (htok (attempted + 1))
      obtain ⟨s, b, hob, hs⟩ := hout (attempted + 1)
      have hstep : (create_route_segment tok r.origin r.destination
          r.display_name (attempted + 1) pid cfg
          (outcomes (attempted + 1))).2 = true := by
        rw [hob]
        rcases hs with rfl | rfl <;> simp [create_route_segment]
      have hloop : route_loop maxR tokens outcomes cfg pid (r :: rest) created
          attempted reqs =
          route_loop maxR tokens outcomes cfg pid rest (created + 1)
            (attempted + 1)
            (reqs ++ [(create_route_segment tok r.origin r.destination
              r.display_name (attempted + 1) pid cfg
              (outcomes (attempted + 1))).1]) := by
        rw [route_loop, if_neg hc, htk]
        simp [hstep]
      rw [hloop]
      have h2' : maxR < (created + 1) + rest.length := by
        simp at h2
        omega
      obtain ⟨ih1, ih2, ih3, ih4⟩ := ih (created + 1) (attempted + 1) _
        (by omega) h2'
      refine ⟨ih1, ?_, ?_, ih4⟩
      · rw [ih2]
        omega
      · rw [ih3]
        simp
        omega

/-- Claim C3: with max_routes_to_create = K, more than K parsed records, and
every token fetch and every submission succeeding, the batch loop issues
exactly K creation requests, attempts exactly K rows (the cap check precedes
the attempt increment and the token fetch, so row K+1 is never attempted),
creates K routes, and does not stop for a token failure. -/
theorem c3_cap_exactly_K (cfg : Config) (K : Nat) (pid : String)
    (tokens : Nat → Option String) (outcomes : Nat → PostOutcome)
    (recs : List Record)
    (hK : cfg.max_routes_to_create = some K)
    (hlen : K < recs.length)
    (htok : ∀ i, (tokens i).isSome = true)
    (hout : ∀ i, ∃ s b, outcomes i = PostOutcome.response s b ∧
      (s = 200 ∨ s = 201)) :
    (route_loop (cfg.max_routes_to_create.getD 100) tokens outcomes cfg pid
      recs 0 0 []).requests.length = K ∧
    (route_loop (cfg.max_routes_to_create.getD 100) tokens outcomes cfg pid
      recs 0 0 []).attempted = K ∧
    (route_loop (cfg.max_routes_to_create.getD 100) tokens outcomes cfg pid
      recs 0 0 []).created = K ∧
    (route_loop (cfg.max_routes_to_create.getD 100) tokens outcomes cfg pid
      recs 0 0 []).tokenFailed = false := by
  rw [hK]
  obtain ⟨h1, h2, h3, h4⟩ := route_loop_all_success K tokens outcomes cfg pid
    htok hout recs 0 0 [] (by omega) (by omega)
  simp only [Option.getD_some]
  refine ⟨?_, ?_, h1, h4⟩
  · rw [h3]
    simp
  · rw [h2]
    simp

/-- Configuration of the C3 witness: a cap of one route. -/
def cfgW3 : Config :=
  { google_project_id := some "proj"
    log_file := none
    max_routes_to_create := some 1
    route_name_pfx := none
    csv_format :=
      { combined_coordinates := some ⟨"origin", "dest"⟩
        separate_coordinates := none
        segment_name_column := none } }

/-- Two parsed records used by the C3 witness. -/
def recsW3 : List Record :=
  [⟨(1, 2), (3, 4), none⟩, ⟨(5, 6), (7, 8), none⟩]

theorem c3_cap_exactly_K_witness :
    (route_loop (cfgW3.max_routes_to_create.getD 100) (fun _ => some "tok")
      (fun _ => PostOutcome.response 200 "") cfgW3 "proj" recsW3 0 0
      []).requests.length = 1 ∧
    (route_loop (cfgW3.max_routes_to_create.getD 100) (fun _ => some "tok")
      (fun _ => PostOutcome.response 200 "") cfgW3 "proj" recsW3 0 0
      []).attempted = 1 ∧
    (route_loop (cfgW3.max_routes_to_create.getD 100) (fun _ => some "tok")
      (fun _ => PostOutcome.response 200 "") cfgW3 "proj" recsW3 0 0
      []).created = 1 ∧
    (route_loop (cfgW3.max_routes_to_create.getD 100) (fun _ => some "tok")
      (fun _ => PostOutcome.response 200 "") cfgW3 "proj" recsW3 0 0
      []).tokenFailed = false :=
  c3_cap_exactly_K cfgW3 1 "proj" (fun _ => some "tok")
    (fun _ => PostOutcome.response 200 "") recsW3 rfl (by decide)
    (fun _ => rfl) (fun _ => ⟨200, "", rfl, Or.inl rfl⟩)

/-- Configuration of the C4 witness. -/
def cfgW4 : Config :=
  { google_project_id := some "proj"
    log_file := none
    max_routes_to_create := some 100
    route_name_pfx := none
    csv_format :=
      { combined_coordinates := some ⟨"origin", "dest"⟩
        separate_coordinates := none
        segment_name_column := none } }

/-- The CSV text of the C4 witness: two well-formed rows. -/
def csvW4 : String :=
  "origin,dest\n\"(1, 2)\",\"(3, 4)\"\n\"(5, 6)\",\"(7, 8)\"\n"

/-- Token oracle of the C4 witness: the second fetch fails. -/
def tokensW4 : Nat → Option String :=
  fun i => if i = 2 then none else some "tok"


/-! ## C9: the activity log -/

/-- Counterexample to claim C9: a logging call does not append a timestamped
line — under the module globals it raises `NameError` while evaluating
`LOG_FILE`, before the file is opened, and leaves the content unchanged. -/
theorem c9_no_append_counterexample :
    (write_log_effect module_globals "[old] prior line\n".data
      "2025-01-01 00:00:00".data "Route Creator Script started.".data).1 =
      Except.error (PyErr.nameError "LOG_FILE") ∧
    (write_log_effect module_globals "[old] prior line\n".data
      "2025-01-01 00:00:00".data "Route Creator Script started.".data).2 =
      "[old] prior line\n".data ∧
    ¬ ∃ line : List Char, line ≠ [] ∧
      (write_log_effect module_globals "[old] prior line\n".data
        "2025-01-01 00:00:00".data "Route Creator Script started.".data).2 =
        "[old] prior line\n".data ++ line := by
  refine ⟨rfl, rfl, ?_⟩
  rintro ⟨line, hne, h⟩
  have h2 : "[old] prior line\n".data = "[old] prior line\n".data ++ line := h
  have h3 := congrArg List.length h2
  rw [List.length_append] at h3
  exact hne (List.length_eq_zero.mp (by omega))

/-- Claim C9 amended: in the program as written no run modifies the log file
at all: every `write_log` call raises `NameError` after the console echo but
before the file is opened, appending nothing, and `main_route_creator`
raises at its first statement, before the mode-'w' initialization of lines
239-241 — so previously written content survives only because the file is
never touched.  With `LOG_FILE` bound, a `write_log` call is append-only:
it preserves the existing content and appends exactly one nonempty
timestamped line. -/
theorem c9_amended_log_untouched :
    (∀ content timestamp message : List Char,
      write_log_effect module_globals content timestamp message =
        (Except.error (PyErr.nameError "LOG_FILE"), content)) ∧
    (∀ content timestamp : List Char,
      main_start_log_state module_globals content timestamp =
        (Except.error (PyErr.nameError "LOG_FILE"), content)) ∧
    (∀ (globals : List String) (content timestamp message : List Char),
      globals.contains "LOG_FILE" = true →
      ∃ line : List Char, line ≠ [] ∧
        write_log_effect globals content timestamp message =
          (Except.ok (), content ++ line)) := by
  refine ⟨fun c t m => rfl, fun c t => rfl, ?_⟩
  intro globals content timestamp message hglob
  have hmem : "LOG_FILE" ∈ globals := by simpa using hglob
  refine ⟨'[' :: (timestamp ++ ']' :: ' ' :: (message ++ ['\n'])), by simp, ?_⟩
  simp [write_log_effect, hmem]

theorem c9_amended_log_untouched_witness :
    ∃ line : List Char, line ≠ [] ∧
      write_log_effect ["LOG_FILE"] "[old] prior line\n".data
        "2025-01-01 00:00:00".data "event".data =
        (Except.ok (), "[old] prior line\n".data ++ line) :=
  c9_amended_log_untouched.2.2 ["LOG_FILE"] "[old] prior line\n".data
    "2025-01-01 00:00:00".data "event".data rfl

/-! ## C7: create_route_segment and its boundary -/

/-- Configuration used by the C7 theorems. -/
def cfgW7 : Config :=
  { google_project_id := some "proj"
    log_file := none
    max_routes_to_create := some 100
    route_name_pfx := some "boston-"
    csv_format :=
      { combined_coordinates := some ⟨"origin", "dest"⟩
        separate_coordinates := none
        segment_name_column := some "name" } }

/-- Counterexample to claim C7: a call of `create_route_segment` does not
return a boolean — under the module globals the line-195 logging call raises
`NameError`, which escapes the function (the `try:` at line 197 has not yet
been entered), and no request is issued. -/
theorem c7_raises_counterexample :
    (create_route_segment_run module_globals "tok" (1, 2) (3, 4)
      (some "Main St") 1 "proj" cfgW7 (PostOutcome.response 200 "")).2 =
      Except.error (PyErr.nameError "LOG_FILE") ∧
    (create_route_segment_run module_globals "tok" (1, 2) (3, 4)
      (some "Main St") 1 "proj" cfgW7 (PostOutcome.response 200 "")).1 = [] ∧
    (create_route_segment_run module_globals "tok" (1, 2) (3, 4)
      (some "Main St") 1 "proj" cfgW7 (PostOutcome.response 200 "")).2 ≠
      Except.ok true := by
  refine ⟨rfl, rfl, ?_⟩
  intro h
  have h2 : (Except.error (PyErr.nameError "LOG_FILE") :
      Except PyErr Bool) = Except.ok true := h
  exact Except.noConfusion h2

/-- Claim C7 amended: in the program as written every call of
`create_route_segment` raises `NameError` at the line-195 logging statement,
before any request is issued.  With `LOG_FILE` bound — the evident intent —
the function never raises past its boundary: it returns a boolean for every
outcome, true exactly when the HTTP status is 200 or 201, false on every
other status, on any network-level exception and on transport timeout. -/
theorem c7_amended_classification :
    (∀ (token : String) (origin destination : ℚ × ℚ) (dn : Option String)
       (counter : Nat) (pid : String) (cfg : Config) (outcome : PostOutcome),
      (create_route_segment_run module_globals token origin destination dn
        counter pid cfg outcome).2 =
        Except.error (PyErr.nameError "LOG_FILE") ∧
      (create_route_segment_run module_globals token origin destination dn
        counter pid cfg outcome).1 = []) ∧
    (∀ (globals : List String) (token : String) (origin destination : ℚ × ℚ)
       (dn : Option String) (counter : Nat) (pid : String) (cfg : Config)
       (outcome : PostOutcome),
      globals.contains "LOG_FILE" = true →
      (∃ b : Bool, (create_route_segment_run globals token origin destination
        dn counter pid cfg outcome).2 = Except.ok b) ∧
      ((create_route_segment_run globals token origin destination dn counter
        pid cfg outcome).2 = Except.ok true ↔
       ∃ body, outcome = PostOutcome.response 200 body ∨
         outcome = PostOutcome.response 201 body)) := by
  constructor
  · intro token origin destination dn counter pid cfg outcome
    exact ⟨rfl, rfl⟩
  · intro globals token origin destination dn counter pid cfg outcome hglob
    have hrun : create_route_segment_run globals token origin destination dn
        counter pid cfg outcome =
        ([(create_route_segment token origin destination dn counter pid cfg
            outcome).1],
         Except.ok (create_route_segment token origin destination dn counter
            pid cfg outcome).2) := by
      have hmem : "LOG_FILE" ∈ globals := by simpa using hglob
      simp [create_route_segment_run, write_log_run, hmem]
    rw [hrun]
    refine ⟨⟨_, rfl⟩, ?_⟩
    cases outcome with
    | response s b =>
      simp only [create_route_segment, Except.ok.injEq, Bool.or_eq_true,
        beq_iff_eq, PostOutcome.response.injEq]
      constructor
      · rintro (rfl | rfl)
        · exact ⟨b, Or.inl ⟨rfl, rfl⟩⟩
        · exact ⟨b, Or.inr ⟨rfl, rfl⟩⟩
      · rintro ⟨body, ⟨rfl, rfl⟩ | ⟨rfl, rfl⟩⟩
        · exact Or.inl rfl
        · exact Or.inr rfl
    | timeout => simp [create_route_segment]
    | requestException m => simp [create_route_segment]
    | otherException m => simp [create_route_segment]

theorem c7_amended_classification_witness :
    (create_route_segment_run ["LOG_FILE"] "tok" (1, 2) (3, 4) none 1 "proj"
      cfgW7 (PostOutcome.response 201 "created")).2 = Except.ok true ∧
    (create_route_segment_run ["LOG_FILE"] "tok" (1, 2) (3, 4) none 1 "proj"
      cfgW7 PostOutcome.timeout).2 ≠ Except.ok true := by
  constructor
  · exact ((c7_amended_classification.2 ["LOG_FILE"] "tok" (1, 2) (3, 4) none
      1 "proj" cfgW7 (PostOutcome.response 201 "created") rfl).2).mpr
      ⟨"created", Or.inr rfl⟩
  · intro h
    obtain ⟨body, hb | hb⟩ := ((c7_amended_classification.2 ["LOG_FILE"]
      "tok" (1, 2) (3, 4) none 1 "proj" cfgW7 PostOutcome.timeout rfl).2).mp h
    · exact PostOutcome.noConfusion hb
    · exact PostOutcome.noConfusion hb

theorem coordSearch_first_match : ∀ (pre ys : List Char) (v : ℚ × ℚ),
    coordSearch ys = some v →
    (∀ i, i < pre.length → tryParse (List.drop i (pre ++ ys)) = none) →
    coordSearch (pre ++ ys) = some v := by
  intro pre
  induction pre with
  | nil =>
    intro ys v h _
    simpa using h
  | cons c p ih =>
    intro ys v h hfirst
    have h0 : tryParse (c :: (p ++ ys)) = none := by
      have h' := hfirst 0 (by simp)
      simpa using h'
    simp only [List.cons_append, coordSearch, List.append_eq, h0]
    exact ih ys v h (fun i hi => by
      have h' := hfirst (i + 1) (by simpa using Nat.succ_lt_succ hi)
      simpa using h')

/-- Claim C10: under the combined encoding a cell parses whenever it
contains anywhere a substring fully matching the pattern ( number , number )
— the regex is applied with search, scanning start positions from the left —
so arbitrary text surrounding the pair is ignored; each number may be a bare
integer, may end with a trailing decimal point, and may carry a leading
minus sign; and the first matching substring supplies the coordinates: when
no earlier start position admits a match, the search returns exactly the
values of this match. -/
theorem c10_search_finds_match (m : List Char) (v1 v2 : ℚ)
    (hm : CoordMatch m v1 v2) :
    (∀ pre post : List Char,
      (coordSearch (pre ++ (m ++ post))).isSome = true) ∧
    (∀ pre post : List Char,
      (∀ i, i < pre.length →
        tryParse (List.drop i (pre ++ (m ++ post))) = none) →
      coordSearch (pre ++ (m ++ post)) = some (v1, v2)) := by
  obtain ⟨t1, t2, w1, w2, w3, w4, hv1, hv2, hw1, hw2, hw3, hw4, hmEq, hval1,
    hval2⟩ := hm
  subst hmEq
  subst hval1
  subst hval2
  have hfront : ∀ post, tryParse (('(' :: (w1 ++ (t1.chars ++ (w2 ++ (',' ::
      (w3 ++ (t2.chars ++ (w4 ++ [')'])))))))) ++ post) =
      some (t1.val, t2.val, post) :=
    fun post => tryParse_match t1 t2 w1 w2 w3 w4 post hv1 hv2 hw1 hw2 hw3 hw4
  constructor
  · intro pre post
    apply coordSearch_append_isSome
    rw [coordSearch_of_tryParse (hfront post)]
    rfl
  · intro pre post hfirst
    exact coordSearch_first_match pre _ _
      (coordSearch_of_tryParse (hfront post)) hfirst

theorem c10_search_finds_match_witness :
    (coordSearch ("junk ".data ++ ("( 42., -7 )".data ++ " tail".data))).isSome
      = true ∧
    coordSearch ("go (a) ".data ++ ("( 42., -7 )".data ++ " tail".data)) =
      some (42, -7) := by
  have hm : CoordMatch ("( 42., -7 )".data) 42 (-7) := by
    refine ⟨⟨false, ['4', '2'], true, []⟩, ⟨true, ['7'], false, []⟩,
      [' '], [], [' '], [' '],
      ⟨by decide, by decide, by decide, by decide⟩,
      ⟨by decide, by decide, by decide, by decide⟩,
      by unfold AllWs; decide, by unfold AllWs; decide,
      by unfold AllWs; decide, by unfold AllWs; decide,
      by decide, by decide, by decide⟩
  have h := c10_search_finds_match _ _ _ hm
  exact ⟨h.1 "junk ".data " tail".data,
    h.2 "go (a) ".data " tail".data (by decide)⟩

/-! ## C4: token failure, with and without the logging effect -/

theorem write_log_run_ok {globals : List String}
    (hglob : globals.contains "LOG_FILE" = true) (m : String) :
    write_log_run globals m = Except.ok () := by
  have hmem : "LOG_FILE" ∈ globals := by simpa using hglob
  simp [write_log_run, hmem]

theorem create_route_segment_snd (token : String) (o d : ℚ × ℚ)
    (dn : Option String) (c : Nat) (pid : String) (cfg : Config)
    (outcome : PostOutcome) :
    (create_route_segment token o d dn c pid cfg outcome).2 =
      submit_ok outcome := by
  cases outcome <;> rfl

theorem create_route_segment_run_of_logging {globals : List String}
    (hglob : globals.contains "LOG_FILE" = true) (token : String)
    (origin destination : ℚ × ℚ) (dn : Option String) (counter : Nat)
    (pid : String) (cfg : Config) (outcome : PostOutcome) :
    create_route_segment_run globals token origin destination dn counter pid
      cfg outcome =
    ([(create_route_segment token origin destination dn counter pid cfg
        outcome).1],
     Except.ok (create_route_segment token origin destination dn counter pid
        cfg outcome).2) := by
  simp [create_route_segment_run, write_log_run_ok hglob]

theorem route_loop_run_of_logging {globals : List String}
    (hglob : globals.contains "LOG_FILE" = true) (maxR : Nat)
    (tokens : Nat → Option String) (outcomes : Nat → PostOutcome)
    (cfg : Config) (pid : String) :
    ∀ (recs : List Record) (created attempted : Nat)
      (reqs : List HttpRequest),
      route_loop_run globals maxR tokens outcomes cfg pid recs created
        attempted reqs =
      Except.ok (route_loop maxR tokens outcomes cfg pid recs created
        attempted reqs) := by
  intro recs
  induction recs with
  | nil => intro created attempted reqs; rfl
  | cons r rest ih =>
    intro created attempted reqs
    rw [route_loop_run, route_loop]
    by_cases hc : maxR ≤ created
    · simp [hc, write_log_run_ok hglob]
    · simp only [if_neg hc]
      cases htk : tokens (attempted + 1) with
      | none =>
        simp [get_gcloud_token_run, write_log_run_ok hglob]
      | some tok =>
        simp [get_gcloud_token_run, write_log_run_ok hglob,
          create_route_segment_run_of_logging hglob, ih]

theorem route_loop_token_fail_exact (maxR : Nat)
    (tokens : Nat → Option String) (outcomes : Nat → PostOutcome)
    (cfg : Config) (pid : String) :
    ∀ (recs : List Record) (m created attempted : Nat)
      (reqs : List HttpRequest),
      m + 1 ≤ recs.length →
      created + successes outcomes attempted m < maxR →
      (∀ i, attempted < i → i ≤ attempted + m → (tokens i).isSome = true) →
      tokens (attempted + m + 1) = none →
      (route_loop maxR tokens outcomes cfg pid recs created attempted
        reqs).created = created + successes outcomes attempted m ∧
      (route_loop maxR tokens outcomes cfg pid recs created attempted
        reqs).attempted = attempted + m + 1 ∧
      (route_loop maxR tokens outcomes cfg pid recs created attempted
        reqs).requests.length = reqs.length + m ∧
      (route_loop maxR tokens outcomes cfg pid recs created attempted
        reqs).tokenFailed = true := by
  intro recs
  induction recs with
  | nil =>
    intro m created attempted reqs hlen
    simp at hlen
  | cons r rest ih =>
    intro m created attempted reqs hlen hcap htok htokM
    have hc : ¬ maxR ≤ created := by omega
    cases m with
    | zero =>
      have htokM' : tokens (attempted + 1) = none := by simpa using htokM
      have hloop : route_loop maxR tokens outcomes cfg pid (r :: rest)
          created attempted reqs = ⟨created, attempted + 1, reqs, true⟩ := by
        rw [route_loop, if_neg hc, htokM']
      rw [hloop]
      simp [successes]
    | succ n =>
      obtain ⟨tok, htk⟩ := Option.isSome_iff_exists.mp
        (htok (attempted + 1) (by omega) (by omega))
      have hloop : route_loop maxR tokens outcomes cfg pid (r :: rest)
          created attempted reqs =
          route_loop maxR tokens outcomes cfg pid rest
            (if submit_ok (outcomes (attempted + 1)) then created + 1
             else created) (attempted + 1)
            (reqs ++ [(create_route_segment tok r.origin r.destination
              r.display_name (attempted + 1) pid cfg
              (outcomes (attempted + 1))).1]) := by
        rw [route_loop, if_neg hc, htk]
        simp only [create_route_segment_snd]
      rw [hloop]
      have hsucc : successes outcomes attempted (n + 1) =
          (if submit_ok (outcomes (attempted + 1)) then 1 else 0) +
            successes outcomes (attempted + 1) n := rfl
      obtain ⟨ih1, ih2, ih3, ih4⟩ := ih n
        (if submit_ok (outcomes (attempted + 1)) then created + 1
         else created) (attempted + 1) _
        (by simp at hlen; omega)
        (by
          cases hok : submit_ok (outcomes (attempted + 1)) <;>
            rw [hsucc] at hcap <;> simp [hok] at hcap ⊢ <;> omega)
        (by intro i h1 h2; exact htok i (by omega) (by omega))
        (by
          rw [show attempted + 1 + n + 1 = attempted + (n + 1) + 1 from by
            omega]
          exact htokM)
      refine ⟨?_, ?_, ?_, ih4⟩
      · rw [ih1, hsucc]
        cases hok : submit_ok (outcomes (attempted + 1)) <;> simp [hok] <;>
          omega
      · rw [ih2]
        omega
      · rw [ih3]
        simp only [List.length_append, List.length_singleton]
        omega

/-- Counterexample to claim C4: a run configured so that token acquisition
would fail on the second of two rows never gets that far — the program's
`main_route_creator` raises `NameError` at its first statement, before the
loop — so no submissions happen, no tally is emitted, and the process exits
with status 1, not 0. -/
theorem c4_scenario_aborts_counterexample :
    main_route_creator_run module_globals (some cfgW4) csvW4.data tokensW4
      (fun _ => PostOutcome.response 200 "") =
      Except.error (PyErr.nameError "LOG_FILE") ∧
    script_exit (main_route_creator_run module_globals (some cfgW4)
      csvW4.data tokensW4 (fun _ => PostOutcome.response 200 "")) = 1 :=
  ⟨rfl, rfl⟩

/-- Claim C4 amended: in the program as written the scenario aborts before
the loop — `main_route_creator` raises `NameError` at its first statement,
no tally is produced and the process exits 1.  Under a module environment
binding `LOG_FILE` (the spec's intended behavior), a `TokenGenerationError`
on the M-th attempted row of the N parsed records — reachable, i.e. the
success count of the first M-1 submissions is still below the cap — stops
the loop with exactly M-1 submissions performed, the attempted counter equal
to M, the already-created routes still counted (no rollback), the tally
emitted, and exit status 0. -/
theorem c4_amended_token_failure :
    (∀ (cfg : Config) (text : List Char) (tokens : Nat → Option String)
       (outcomes : Nat → PostOutcome),
      main_route_creator_run module_globals (some cfg) text tokens outcomes =
        Except.error (PyErr.nameError "LOG_FILE") ∧
      script_exit (main_route_creator_run module_globals (some cfg) text
        tokens outcomes) = 1) ∧
    (∀ (globals : List String) (cfg : Config) (pid : String)
       (text : List Char) (recs : List Record)
       (tokens : Nat → Option String) (outcomes : Nat → PostOutcome)
       (M : Nat),
      globals.contains "LOG_FILE" = true →
      cfg.google_project_id = some pid →
      parse_coordinate_file text cfg = Except.ok (some recs) →
      1 ≤ M → M ≤ recs.length →
      successes outcomes 0 (M - 1) < cfg.max_routes_to_create.getD 100 →
      (∀ i, 1 ≤ i → i < M → (tokens i).isSome = true) →
      tokens M = none →
      ∃ res : BatchResult,
        main_route_creator_run globals (some cfg) text tokens outcomes =
          Except.ok (0, some res) ∧
        res.attempted = M ∧ res.requests.length = M - 1 ∧
        res.created = successes outcomes 0 (M - 1) ∧
        res.tokenFailed = true ∧
        script_exit (main_route_creator_run globals (some cfg) text tokens
          outcomes) = 0) := by
  constructor
  · intro cfg text tokens outcomes
    exact ⟨rfl, rfl⟩
  · intro globals cfg pid text recs tokens outcomes M hglob hpid hparse hM1
      hMN hcap htok htokM
    have hrecs_ne : recs ≠ [] := by
      intro h
      subst h
      simp at hMN
      omega
    have hmain : main_route_creator_run globals (some cfg) text tokens
        outcomes = Except.ok (0, some (route_loop
          (cfg.max_routes_to_create.getD 100) tokens outcomes cfg pid recs
          0 0 [])) := by
      obtain ⟨r0, rest, hr⟩ := List.exists_cons_of_ne_nil hrecs_ne
      subst hr
      rw [main_route_creator_run, write_log_run_ok hglob]
      simp only [hpid, hparse, route_loop_run_of_logging hglob]
    obtain ⟨h1, h2, h3, h4⟩ := route_loop_token_fail_exact
      (cfg.max_routes_to_create.getD 100) tokens outcomes cfg pid recs
      (M - 1) 0 0 [] (by omega) (by omega)
      (by intro i hi1 hi2; exact htok i (by omega) (by omega))
      (by rw [show 0 + (M - 1) + 1 = M from by omega]; exact htokM)
    refine ⟨route_loop (cfg.max_routes_to_create.getD 100) tokens outcomes
      cfg pid recs 0 0 [], hmain, ?_, ?_, ?_, h4, ?_⟩
    · rw [h2]
      omega
    · rw [h3]
      simp
    · rw [h1]
      omega
    · rw [hmain]
      rfl

theorem c4_amended_token_failure_witness :
    (main_route_creator_run module_globals (some cfgW4) csvW4.data tokensW4
      (fun _ => PostOutcome.response 200 "") =
      Except.error (PyErr.nameError "LOG_FILE") ∧
     script_exit (main_route_creator_run module_globals (some cfgW4)
      csvW4.data tokensW4 (fun _ => PostOutcome.response 200 "")) = 1) ∧
    (∃ res : BatchResult,
      main_route_creator_run ["LOG_FILE"] (some cfgW4) csvW4.data tokensW4
        (fun _ => PostOutcome.response 200 "") = Except.ok (0, some res) ∧
      res.attempted = 2 ∧ res.requests.length = 1 ∧
      res.created = successes (fun _ => PostOutcome.response 200 "") 0 1 ∧
      res.tokenFailed = true ∧
      script_exit (main_route_creator_run ["LOG_FILE"] (some cfgW4)
        csvW4.data tokensW4 (fun _ => PostOutcome.response 200 "")) = 0) := by
  constructor
  · exact c4_amended_token_failure.1 cfgW4 csvW4.data tokensW4
      (fun _ => PostOutcome.response 200 "")
  · exact c4_amended_token_failure.2 ["LOG_FILE"] cfgW4 "proj" csvW4.data
      [⟨(mkRat 1 1, mkRat 2 1), (mkRat 3 1, mkRat 4 1), none⟩,
       ⟨(mkRat 5 1, mkRat 6 1), (mkRat 7 1, mkRat 8 1), none⟩]
      tokensW4 (fun _ => PostOutcome.response 200 "") 2 rfl rfl rfl
      (by omega) (by decide) (by decide)
      (by
        intro i h1 h2
        have hi : i = 1 := by omega
        subst hi
        rfl)
      rfl
